import Mathlib

/-!
Shallow embedding of the Kampung Spirit dashboard (src/D01.py) and proofs
about its data loading, geocoding, date filtering and statistics code.

Conventions of the embedding:
* Event dates are modelled as day numbers (`Int`); a pandas `NaT` is `none`.
* `pd.to_datetime(..., errors='coerce')` is modelled by a total parsing
  function `parse : String → Option Int` supplied as a parameter: `coerce`
  mode returns a null marker (`none`) for malformed input instead of raising.
* The HTTP GET to the OneMap search endpoint (D01.py line 19) is modelled by a
  service function `svc : String → GeoResponse` from postal code to response.
* Numeric cell values and coordinates are rationals; a pandas `NaN` is `none`.
-/

/-- One entry of the OneMap response's results array: the LATITUDE and
LONGITUDE fields read at D01.py lines 22-23 (after `float` conversion). -/
structure GeoResult where
  LATITUDE : Rat
  LONGITUDE : Rat
deriving Repr, DecidableEq

/-- The OneMap search response used by `get_lat_lon`: a found count and a
results array (D01.py lines 21-23). -/
structure GeoResponse where
  found : Nat
  results : List GeoResult
deriving Repr, DecidableEq

/-- Embedding of `get_lat_lon` (D01.py lines 16-25): when the response's found
count is positive, return the first result's latitude/longitude pair, else
return `(none, none)`. On an ill-formed response with a positive found count
but an empty results array, Python would raise IndexError at line 22; this
embedding returns `(none, none)` there, and every theorem relying on that
branch carries a well-formedness hypothesis ruling it out. -/
def get_lat_lon (svc : String → GeoResponse) (postal_code : String) :
    Option Rat × Option Rat :=
  let response := svc postal_code
  if response.found > 0 then
    match response.results with
    | r :: _ => (some r.LATITUDE, some r.LONGITUDE)
    | [] => (none, none)
  else
    (none, none)

/-- A raw spreadsheet row as produced by `pd.read_excel` (D01.py line 29),
restricted to the columns the verified behaviour touches. -/
structure RawRow where
  eventDateRaw : String
  postalCode : String
  Attendance : Option Rat
deriving Repr, DecidableEq

/-- A processed row of the record set after `load_sheet`: the Event Date
column converted to datetime (line 32) and Latitude/Longitude derived from
the postal code (line 34). -/
structure Row where
  eventDate : Option Int
  postalCode : String
  Attendance : Option Rat
  Latitude : Option Rat
  Longitude : Option Rat
deriving Repr, DecidableEq

/-- Processing of one row inside `load_sheet`: parse the Event Date with
coerce semantics (line 32) and geocode the postal code (line 34). -/
def mk_row (parse : String → Option Int) (svc : String → GeoResponse)
    (r : RawRow) : Row :=
  let ll := get_lat_lon svc r.postalCode
  { eventDate := parse r.eventDateRaw
    postalCode := r.postalCode
    Attendance := r.Attendance
    Latitude := ll.1
    Longitude := ll.2 }

/-- Embedding of `load_sheet` (D01.py lines 28-35) instrumented with the trace
of geocoding calls: the first component is the processed record set, the
second lists, in order, the postal codes sent to the geocoding service.
Line 34 applies `get_lat_lon` to every row of the sheet, so each row
contributes exactly one call to the trace. -/
def load_sheet_traced (parse : String → Option Int)
    (svc : String → GeoResponse) : List RawRow → List Row × List String
  | [] => ([], [])
  | r :: rs =>
      let rest := load_sheet_traced parse svc rs
      (mk_row parse svc r :: rest.1, r.postalCode :: rest.2)

/-- The record set produced by `load_sheet` (D01.py lines 28-35). -/
def load_sheet (parse : String → Option Int) (svc : String → GeoResponse)
    (raws : List RawRow) : List Row :=
  (load_sheet_traced parse svc raws).1

/-- The date-range predicate of D01.py line 145:
`(df["Event Date"] >= start_date) & (df["Event Date"] <= end_date)`.
In pandas a comparison with `NaT` is False, so a row whose Event Date failed
to parse satisfies neither bound and is dropped. -/
def in_date_range (s e : Int) (r : Row) : Bool :=
  match r.eventDate with
  | some d => decide (s ≤ d) && decide (d ≤ e)
  | none => false

/-- The date filter of D01.py lines 141-145: rows are filtered only when both
a start date and an end date are supplied; otherwise the frame is unchanged. -/
def filter_by_date (s e : Option Int) (df : List Row) : List Row :=
  match s, e with
  | some sd, some ed => df.filter (in_date_range sd ed)
  | _, _ => df

/-- `df["Attendance"].sum()` (D01.py line 150): pandas sums the non-null
entries of the column. -/
def col_sum : List (Option Rat) → Rat
  | [] => 0
  | none :: xs => col_sum xs
  | some x :: xs => x + col_sum xs

/-- `df["Attendance"].count()` (D01.py line 151): pandas counts the non-null
entries of the column. -/
def col_count : List (Option Rat) → Nat
  | [] => 0
  | none :: xs => col_count xs
  | some _ :: xs => 1 + col_count xs

/-- `total_attendance` (D01.py line 150). -/
def total_attendance_of (df : List Row) : Rat :=
  col_sum (df.map (·.Attendance))

/-- `total_registrants` (D01.py line 151). -/
def total_registrants_of (df : List Row) : Nat :=
  col_count (df.map (·.Attendance))

/-- `attrition_rate` (D01.py line 152): the percentage formula guarded by
`if total_registrants > 0 else 0`. -/
def attrition_rate_of (df : List Row) : Rat :=
  if total_registrants_of df > 0 then
    (((total_registrants_of df : Rat) - total_attendance_of df) /
      (total_registrants_of df : Rat)) * 100
  else 0

/-- The outputs of the `update_dashboard` callback that the embedding tracks,
plus the filtered record set every output is computed from and the trace of
geocoding calls the invocation performs. A heatmap feature is the coordinate
pair `[lon, lat]` of D01.py line 184. -/
structure DashboardOutput where
  records : List Row
  total_attendance : Rat
  total_registrants : Nat
  attrition_rate : Rat
  heatmap_features : List (Option Rat × Option Rat)
  data_table : String
  geocode_calls : List String
deriving Repr, DecidableEq

/-- Embedding of `update_dashboard` (D01.py lines 137-193): reload the sheet,
filter by the date range when both endpoints are given, compute the
attendance statistics, build one heatmap feature per row from its
(Longitude, Latitude) pair (lines 179-188), and return the data table as the
empty string (line 193). Line 144 re-applies `pd.to_datetime` with coerce to
the already-converted column, which is the identity in this model. -/
def update_dashboard (parse : String → Option Int) (svc : String → GeoResponse)
    (start_date end_date : Option Int) (raws : List RawRow) : DashboardOutput :=
  let loaded := load_sheet_traced parse svc raws
  let df := filter_by_date start_date end_date loaded.1
  { records := df
    total_attendance := total_attendance_of df
    total_registrants := total_registrants_of df
    attrition_rate := attrition_rate_of df
    heatmap_features := df.map (fun r => (r.Longitude, r.Latitude))
    data_table := ""
    geocode_calls := loaded.2 }

/-- The Input wiring of the callback (D01.py lines 131-135): the component
properties whose change triggers `update_dashboard`. The column multi-select
`("data-filter", "value")` is not among them. -/
def callback_inputs : List (String × String) :=
  [("sheet-selector", "value"),
   ("date-filter", "start_date"),
   ("date-filter", "end_date")]

/-! ### Helper lemmas -/

/-- The column sum is the sum of the non-null entries. -/
theorem col_sum_eq_sum (xs : List (Option Rat)) :
    col_sum xs = xs.reduceOption.sum := by
  induction xs with
  | nil => rfl
  | cons x xs ih => cases x <;> simp [col_sum, ih]

/-- The column count is the number of non-null entries. -/
theorem col_count_eq_length (xs : List (Option Rat)) :
    col_count xs = xs.reduceOption.length := by
  induction xs with
  | nil => rfl
  | cons x xs ih => cases x <;> simp [col_count, ih, Nat.add_comm]

/-- `load_sheet` processes each raw row independently with `mk_row`. -/
theorem load_sheet_eq_map (parse : String → Option Int)
    (svc : String → GeoResponse) (raws : List RawRow) :
    load_sheet parse svc raws = raws.map (mk_row parse svc) := by
  induction raws with
  | nil => rfl
  | cons r rs ih =>
      simp only [load_sheet, load_sheet_traced, List.map] at ih ⊢
      exact congrArg _ ih

/-- The trace of geocoding calls lists the postal codes of the raw rows. -/
theorem load_sheet_traced_snd (parse : String → Option Int)
    (svc : String → GeoResponse) (raws : List RawRow) :
    (load_sheet_traced parse svc raws).2 = raws.map (·.postalCode) := by
  induction raws with
  | nil => rfl
  | cons r rs ih =>
      simp only [load_sheet_traced, List.map] at ih ⊢
      exact congrArg _ ih

/-- The date filter never adds rows: it keeps a sublist of the frame. -/
theorem filter_by_date_sublist (s e : Option Int) (df : List Row) :
    (filter_by_date s e df).Sublist df := by
  cases s with
  | none => cases e <;> exact List.Sublist.refl df
  | some sd =>
      cases e with
      | none => exact List.Sublist.refl df
      | some ed => exact List.filter_sublist df

/-- When either endpoint of the range is absent the filter is the identity. -/
theorem filter_by_date_none (s e : Option Int) (df : List Row)
    (h : s = none ∨ e = none) : filter_by_date s e df = df := by
  cases s with
  | none => cases e <;> rfl
  | some sd =>
      cases e with
      | none => rfl
      | some ed => rcases h with h | h <;> exact absurd h (by simp)

/-! ### Witness fixtures: small concrete services, parsers and sheets. -/

/-- A parser that accepts two ISO dates and coerces everything else to null. -/
def w_parse : String → Option Int := fun str =>
  if str = "2024-01-01" then some 1
  else if str = "2024-01-05" then some 5
  else none

/-- A geocoding service that knows one postal code. -/
def w_svc : String → GeoResponse := fun pc =>
  if pc = "018956" then { found := 1, results := [{ LATITUDE := 103/100, LONGITUDE := 10381/100 }] }
  else { found := 0, results := [] }

/-- A one-row sheet: a parseable date, a known postal code, Attendance 1. -/
def w_raws1 : List RawRow :=
  [{ eventDateRaw := "2024-01-01", postalCode := "018956", Attendance := some 1 }]

/-- A two-row sheet whose second row falls outside the range [0, 2]. -/
def w_raws2 : List RawRow :=
  [{ eventDateRaw := "2024-01-01", postalCode := "018956", Attendance := some 1 },
   { eventDateRaw := "2024-01-05", postalCode := "999999", Attendance := some 0 }]

/-! ### Claims -/

/-- C1: for every loaded-and-filtered record set with at least one registrant,
`update_dashboard` displays a total attendance equal to the sum of the
(non-null) Attendance column, takes the number of registrants to be the count
of non-null Attendance values, and displays an attrition rate equal to
((registrants − attendees) / registrants) × 100. -/
theorem c1_attendance_and_attrition (p : String → Option Int)
    (g : String → GeoResponse) (s e : Option Int) (rs : List RawRow)
    (h : 0 < (update_dashboard p g s e rs).total_registrants) :
    (update_dashboard p g s e rs).total_attendance
      = (((update_dashboard p g s e rs).records.map (·.Attendance)).reduceOption).sum
    ∧ (update_dashboard p g s e rs).total_registrants
      = (((update_dashboard p g s e rs).records.map (·.Attendance)).reduceOption).length
    ∧ (update_dashboard p g s e rs).attrition_rate
      = ((((update_dashboard p g s e rs).total_registrants : Rat)
            - (update_dashboard p g s e rs).total_attendance)
          / ((update_dashboard p g s e rs).total_registrants : Rat)) * 100 := by
  refine ⟨col_sum_eq_sum _, col_count_eq_length _, ?_⟩
  have h' : 0 < total_registrants_of
      (filter_by_date s e (load_sheet_traced p g rs).1) := h
  show attrition_rate_of (filter_by_date s e (load_sheet_traced p g rs).1) = _
  rw [attrition_rate_of, if_pos h']
  rfl

/-- Witness for C1: on the one-row fixture the registrant count is positive
and the displayed statistics satisfy the claimed formulas. -/
theorem c1_attendance_and_attrition_witness :
    0 < (update_dashboard w_parse w_svc none none w_raws1).total_registrants
    ∧ ((update_dashboard w_parse w_svc none none w_raws1).total_attendance
        = (((update_dashboard w_parse w_svc none none w_raws1).records.map (·.Attendance)).reduceOption).sum
      ∧ (update_dashboard w_parse w_svc none none w_raws1).total_registrants
        = (((update_dashboard w_parse w_svc none none w_raws1).records.map (·.Attendance)).reduceOption).length
      ∧ (update_dashboard w_parse w_svc none none w_raws1).attrition_rate
        = ((((update_dashboard w_parse w_svc none none w_raws1).total_registrants : Rat)
              - (update_dashboard w_parse w_svc none none w_raws1).total_attendance)
            / ((update_dashboard w_parse w_svc none none w_raws1).total_registrants : Rat)) * 100) :=
  ⟨by decide, c1_attendance_and_attrition w_parse w_svc none none w_raws1 (by decide)⟩

/-- C8: when the filtered record set has zero non-null Attendance values,
`update_dashboard` reports an attrition rate of 0: the guard
`if total_registrants > 0` makes the division unreachable. -/
theorem c8_attrition_guarded_at_zero (p : String → Option Int)
    (g : String → GeoResponse) (s e : Option Int) (rs : List RawRow)
    (h : (update_dashboard p g s e rs).total_registrants = 0) :
    (update_dashboard p g s e rs).attrition_rate = 0 := by
  have h' : total_registrants_of
      (filter_by_date s e (load_sheet_traced p g rs).1) = 0 := h
  show attrition_rate_of (filter_by_date s e (load_sheet_traced p g rs).1) = 0
  rw [attrition_rate_of, h']
  simp

/-- Witness for C8: on the empty sheet the registrant count is 0 and the
reported attrition rate is 0. -/
theorem c8_attrition_guarded_at_zero_witness :
    (update_dashboard w_parse w_svc none none []).total_registrants = 0
    ∧ (update_dashboard w_parse w_svc none none []).attrition_rate = 0 :=
  ⟨by decide, c8_attrition_guarded_at_zero w_parse w_svc none none [] (by decide)⟩

/-- C2: `get_lat_lon` returns the first result's latitude/longitude pair when
the response's found count is positive and `(none, none)` otherwise; in every
row produced by `load_sheet`, Latitude and Longitude are present exactly when
the geocoding call for that row's postal code succeeded, and both are absent
when it failed. The hypothesis rules out ill-formed responses (positive found
count with an empty results array), where the Python code would raise. -/
theorem c2_geocoding (g : String → GeoResponse)
    (hwf : ∀ pc, 0 < (g pc).found → (g pc).results ≠ [])
    (p : String → Option Int) (rs : List RawRow) :
    (∀ pc r tl, 0 < (g pc).found → (g pc).results = r :: tl →
        get_lat_lon g pc = (some r.LATITUDE, some r.LONGITUDE))
    ∧ (∀ pc, (g pc).found = 0 → get_lat_lon g pc = (none, none))
    ∧ (∀ row ∈ load_sheet p g rs,
        (row.Latitude.isSome ↔ 0 < (g row.postalCode).found)
        ∧ (row.Longitude.isSome ↔ 0 < (g row.postalCode).found)
        ∧ ((g row.postalCode).found = 0 →
            row.Latitude = none ∧ row.Longitude = none)) := by
  have hfst : ∀ pc r tl, 0 < (g pc).found → (g pc).results = r :: tl →
      get_lat_lon g pc = (some r.LATITUDE, some r.LONGITUDE) := by
    intro pc r tl hpos hres
    simp [get_lat_lon, hpos, hres]
  have hzero : ∀ pc, (g pc).found = 0 → get_lat_lon g pc = (none, none) := by
    intro pc h0
    simp [get_lat_lon, h0]
  refine ⟨hfst, hzero, ?_⟩
  intro row hrow
  rw [load_sheet_eq_map] at hrow
  rcases List.mem_map.mp hrow with ⟨raw, _, hmk⟩
  have hpc : row.postalCode = raw.postalCode := by rw [← hmk]; rfl
  have hlatlon : (row.Latitude, row.Longitude) = get_lat_lon g raw.postalCode := by
    rw [← hmk]; rfl
  rcases hfound : (g raw.postalCode).found with _ | n
  · have := hzero raw.postalCode hfound
    rw [this] at hlatlon
    have hlat : row.Latitude = none := congrArg Prod.fst hlatlon
    have hlon : row.Longitude = none := congrArg Prod.snd hlatlon
    rw [hpc, hfound]
    simp [hlat, hlon]
  · have hpos : 0 < (g raw.postalCode).found := by rw [hfound]; exact Nat.succ_pos n
    rcases hres : (g raw.postalCode).results with _ | ⟨r, tl⟩
    · exact absurd hres (hwf raw.postalCode hpos)
    · have := hfst raw.postalCode r tl hpos hres
      rw [this] at hlatlon
      have hlat : row.Latitude = some r.LATITUDE := congrArg Prod.fst hlatlon
      have hlon : row.Longitude = some r.LONGITUDE := congrArg Prod.snd hlatlon
      rw [hpc, hfound]
      simp [hlat, hlon]

/-- Witness for C2: the fixture service is well-formed, and the conclusion
holds for it on the one-row fixture sheet. -/
theorem c2_geocoding_witness :
    (∀ pc, 0 < (w_svc pc).found → (w_svc pc).results ≠ [])
    ∧ ((∀ pc r tl, 0 < (w_svc pc).found → (w_svc pc).results = r :: tl →
          get_lat_lon w_svc pc = (some r.LATITUDE, some r.LONGITUDE))
      ∧ (∀ pc, (w_svc pc).found = 0 → get_lat_lon w_svc pc = (none, none))
      ∧ (∀ row ∈ load_sheet w_parse w_svc w_raws1,
          (row.Latitude.isSome ↔ 0 < (w_svc row.postalCode).found)
          ∧ (row.Longitude.isSome ↔ 0 < (w_svc row.postalCode).found)
          ∧ ((w_svc row.postalCode).found = 0 →
              row.Latitude = none ∧ row.Longitude = none))) :=
  have hwf : ∀ pc, 0 < (w_svc pc).found → (w_svc pc).results ≠ [] := by
    intro pc
    unfold w_svc
    by_cases hpc : pc = "018956" <;> simp [hpc]
  ⟨hwf, c2_geocoding w_svc hwf w_parse w_raws1⟩

/-- The row predicate of the date filter holds exactly when the row's Event
Date parsed and lies within the closed range. -/
theorem in_date_range_iff (s e : Int) (r : Row) :
    in_date_range s e r = true ↔ ∃ d, r.eventDate = some d ∧ s ≤ d ∧ d ≤ e := by
  rcases hd : r.eventDate with _ | d
  · simp [in_date_range, hd]
  · simp [in_date_range, hd]

/-- C3: with both a start and an end date selected, `update_dashboard` keeps
exactly the rows of the loaded sheet whose Event Date lies within the range,
inclusive of both boundaries: a row dated at either boundary is kept and
every row dated strictly outside the range (or with an unparseable date) is
excluded. -/
theorem c3_date_range_inclusive (p : String → Option Int)
    (g : String → GeoResponse) (rs : List RawRow) (s e : Int) (r : Row) :
    r ∈ (update_dashboard p g (some s) (some e) rs).records ↔
      r ∈ load_sheet p g rs ∧ ∃ d, r.eventDate = some d ∧ s ≤ d ∧ d ≤ e := by
  show r ∈ (load_sheet p g rs).filter (in_date_range s e) ↔ _
  rw [List.mem_filter, in_date_range_iff]

/-- C5: `load_sheet` never rejects a sheet over its Event Date column: every
row's stored Event Date is exactly the (coerce-mode, hence total) parse of
its raw cell, so a malformed date becomes the null marker `none` (pandas NaT)
and the load always completes with one output row per input row. -/
theorem c5_malformed_dates_coerced (p : String → Option Int)
    (g : String → GeoResponse) (rs : List RawRow) :
    (load_sheet p g rs).map (·.eventDate) = rs.map (fun r => p r.eventDateRaw) := by
  rw [load_sheet_eq_map, List.map_map]
  rfl

/-- C9: if either endpoint of the date filter is absent, `update_dashboard`
applies no date filtering: its record set is the full loaded sheet and every
statistic and the heatmap are computed over that full record set. -/
theorem c9_absent_endpoint_unfiltered (p : String → Option Int)
    (g : String → GeoResponse) (s e : Option Int) (rs : List RawRow)
    (h : s = none ∨ e = none) :
    (update_dashboard p g s e rs).records = load_sheet p g rs
    ∧ (update_dashboard p g s e rs).total_attendance
        = total_attendance_of (load_sheet p g rs)
    ∧ (update_dashboard p g s e rs).total_registrants
        = total_registrants_of (load_sheet p g rs)
    ∧ (update_dashboard p g s e rs).attrition_rate
        = attrition_rate_of (load_sheet p g rs)
    ∧ (update_dashboard p g s e rs).heatmap_features
        = (load_sheet p g rs).map (fun r => (r.Longitude, r.Latitude)) := by
  have hrec : filter_by_date s e (load_sheet_traced p g rs).1 = load_sheet p g rs :=
    filter_by_date_none s e _ h
  exact ⟨hrec, congrArg total_attendance_of hrec, congrArg total_registrants_of hrec,
    congrArg attrition_rate_of hrec,
    congrArg (fun df => df.map (fun r => (r.Longitude, r.Latitude))) hrec⟩

/-- Witness for C9: with an absent start date the two-row fixture is shown in
full, with all statistics taken over the full sheet. -/
theorem c9_absent_endpoint_unfiltered_witness :
    ((none : Option Int) = none ∨ (some 0 : Option Int) = none)
    ∧ ((update_dashboard w_parse w_svc none (some 0) w_raws2).records
          = load_sheet w_parse w_svc w_raws2
      ∧ (update_dashboard w_parse w_svc none (some 0) w_raws2).total_attendance
          = total_attendance_of (load_sheet w_parse w_svc w_raws2)
      ∧ (update_dashboard w_parse w_svc none (some 0) w_raws2).total_registrants
          = total_registrants_of (load_sheet w_parse w_svc w_raws2)
      ∧ (update_dashboard w_parse w_svc none (some 0) w_raws2).attrition_rate
          = attrition_rate_of (load_sheet w_parse w_svc w_raws2)
      ∧ (update_dashboard w_parse w_svc none (some 0) w_raws2).heatmap_features
          = (load_sheet w_parse w_svc w_raws2).map (fun r => (r.Longitude, r.Latitude))) :=
  ⟨Or.inl rfl,
    c9_absent_endpoint_unfiltered w_parse w_svc none (some 0) w_raws2 (Or.inl rfl)⟩

/-- A row of a loaded sheet whose geocoding call found nothing stores no
coordinates. -/
theorem load_sheet_found_zero (p : String → Option Int)
    (g : String → GeoResponse) (rs : List RawRow) (row : Row)
    (hrow : row ∈ load_sheet p g rs) (h0 : (g row.postalCode).found = 0) :
    row.Latitude = none ∧ row.Longitude = none := by
  rw [load_sheet_eq_map] at hrow
  rcases List.mem_map.mp hrow with ⟨raw, _, hmk⟩
  have hpc : row.postalCode = raw.postalCode := by rw [← hmk]; rfl
  have hlatlon : (row.Latitude, row.Longitude) = get_lat_lon g raw.postalCode := by
    rw [← hmk]; rfl
  rw [hpc] at h0
  rw [show get_lat_lon g raw.postalCode = (none, none) from by
    simp [get_lat_lon, h0]] at hlatlon
  exact ⟨congrArg Prod.fst hlatlon, congrArg Prod.snd hlatlon⟩

/-- C4 as stated is refuted by the code: with the range [0, 2] selected on
the two-row fixture sheet, one row is displayed but two geocoding calls are
made, because line 34 geocodes every row of the sheet before the date filter
of line 145 runs. -/
theorem c4_counterexample_calls_exceed_displayed :
    ¬ ((update_dashboard w_parse w_svc (some 0) (some 2) w_raws2).geocode_calls.length
        = (update_dashboard w_parse w_svc (some 0) (some 2) w_raws2).records.length) := by
  decide

/-- C4 (amended): on every filter change the record set is recomputed in full
and the sequential geocoding call is executed exactly once per row of the
loaded sheet — including rows the date filter then excludes — so the trace of
calls is the sheet's postal-code column, has the sheet's length, does not
depend on the selected date range (no caching: each invocation re-issues
every call), and the displayed row count never exceeds the call count. -/
theorem c4_amended_once_per_loaded_row (p : String → Option Int)
    (g : String → GeoResponse) (s e : Option Int) (rs : List RawRow) :
    (update_dashboard p g s e rs).geocode_calls = rs.map (·.postalCode)
    ∧ (update_dashboard p g s e rs).geocode_calls.length = rs.length
    ∧ (update_dashboard p g s e rs).geocode_calls
        = (update_dashboard p g none none rs).geocode_calls
    ∧ (update_dashboard p g s e rs).records.length ≤ rs.length := by
  have ht := load_sheet_traced_snd p g rs
  refine ⟨ht, ?_, rfl, ?_⟩
  · show (load_sheet_traced p g rs).2.length = rs.length
    rw [ht, List.length_map]
  · calc (update_dashboard p g s e rs).records.length
        ≤ (load_sheet p g rs).length :=
          (filter_by_date_sublist s e (load_sheet p g rs)).length_le
      _ = rs.length := by rw [load_sheet_eq_map, List.length_map]

/-- C7: for every sheet selection and date range the data-table output of
`update_dashboard` is the empty string, and the column multi-select is not an
Input of the callback, so changing it has no effect on any output. -/
theorem c7_table_empty_multiselect_inert (p : String → Option Int)
    (g : String → GeoResponse) (s e : Option Int) (rs : List RawRow) :
    (update_dashboard p g s e rs).data_table = ""
    ∧ ("data-filter", "value") ∉ callback_inputs := by
  exact ⟨rfl, by decide⟩

/-- C10: the heatmap layer of `update_dashboard` holds exactly one point
feature per displayed row, in order, with coordinates [lon, lat]; a row whose
geocoding failed is not omitted — it contributes a feature whose coordinates
are both absent. -/
theorem c10_heatmap_feature_per_row (p : String → Option Int)
    (g : String → GeoResponse) (s e : Option Int) (rs : List RawRow) :
    (update_dashboard p g s e rs).heatmap_features
        = (update_dashboard p g s e rs).records.map (fun r => (r.Longitude, r.Latitude))
    ∧ (update_dashboard p g s e rs).heatmap_features.length
        = (update_dashboard p g s e rs).records.length
    ∧ ∀ r ∈ (update_dashboard p g s e rs).records,
        (g r.postalCode).found = 0 →
          (r.Longitude, r.Latitude) ∈ (update_dashboard p g s e rs).heatmap_features
          ∧ r.Longitude = none ∧ r.Latitude = none := by
  refine ⟨rfl, List.length_map _ _, ?_⟩
  intro r hr h0
  have hload : r ∈ load_sheet p g rs :=
    (filter_by_date_sublist s e (load_sheet p g rs)).subset hr
  have hcoords := load_sheet_found_zero p g rs r hload h0
  exact ⟨List.mem_map_of_mem _ hr, hcoords.2, hcoords.1⟩

/-- The second row of the two-row fixture after processing: its postal code
is unknown to the fixture service, so both coordinates are absent. -/
def w_row2 : Row :=
  { eventDate := some 5, postalCode := "999999", Attendance := some 0,
    Latitude := none, Longitude := none }

/-- Witness for C10: the failed-geocode fixture row is displayed, its
geocoding found nothing, and it still contributes a feature with absent
coordinates. -/
theorem c10_heatmap_feature_per_row_witness :
    w_row2 ∈ (update_dashboard w_parse w_svc none none w_raws2).records
    ∧ (w_svc w_row2.postalCode).found = 0
    ∧ ((w_row2.Longitude, w_row2.Latitude)
          ∈ (update_dashboard w_parse w_svc none none w_raws2).heatmap_features
        ∧ w_row2.Longitude = none ∧ w_row2.Latitude = none) :=
  ⟨by decide, by decide,
    (c10_heatmap_feature_per_row w_parse w_svc none none w_raws2).2.2
      w_row2 (by decide) (by decide)⟩

/-! ### Column-access model for missing-column behaviour

The record-set model above fixes the columns in the `Row` type; to reason
about sheets that lack an expected survey column, the statistics block of
`update_dashboard` is re-embedded over a raw, column-indexed dataframe. -/

/-- A raw dataframe: an association list from column name to cells, a cell
being `none` for NaN. -/
abbrev RawFrame := List (String × List (Option Rat))

/-- Column access `df[c]`: pandas raises an uncaught KeyError when the column
is absent; the exception is modelled as `Except.error` carrying the missing
column's name. -/
def get_column (df : RawFrame) (c : String) : Except String (List (Option Rat)) :=
  match df.lookup c with
  | some cells => .ok cells
  | none => .error c

/-- `Series.mean`: the mean of the non-null entries (the `averages` Series of
D01.py line 147, indexed per column at lines 161-165). -/
def col_mean (xs : List (Option Rat)) : Rat :=
  col_sum xs / (col_count xs : Rat)

/-- The statistics block of `update_dashboard` (D01.py lines 147-165) with
every column access explicit: the Attendance statistics of lines 150-152,
then the five per-column averages displayed at lines 161-165. No validation
of the columns happens before any access, so the first missing column
surfaces as an uncaught KeyError and no output is produced. -/
def update_dashboard_stats (df : RawFrame) :
    Except String (Rat × Nat × Rat × List Rat) := do
  let attendance ← get_column df "Attendance"
  let total_attendance := col_sum attendance
  let total_registrants := col_count attendance
  let attrition_rate : Rat :=
    if total_registrants > 0 then
      (((total_registrants : Rat) - total_attendance) / (total_registrants : Rat)) * 100
    else 0
  let age ← get_column df "Age"
  let neighbours ← get_column df "How many new neighbours met?"
  let knowledge ← get_column df "How much better do you know your neighbours?"
  let rating ← get_column df "Rating of the whole event."
  let promote ← get_column df "How likely are you to promote this event to your friend?"
  return (total_attendance, total_registrants, attrition_rate,
    [col_mean age, col_mean neighbours, col_mean knowledge,
     col_mean rating, col_mean promote])

/-- C6: a sheet lacking an expected survey column makes `update_dashboard`
fail with an uncaught KeyError naming the column, with no user-facing output
produced and no prior validation: shown for a sheet lacking Attendance and
for a sheet lacking Age. -/
theorem c6_missing_column_uncaught_error :
    update_dashboard_stats [("Age", [some 30, some 41])] = .error "Attendance"
    ∧ update_dashboard_stats
        [("Attendance", [some 1, some 0]),
         ("How many new neighbours met?", [some 2, some 3])] = .error "Age" :=
  ⟨rfl, rfl⟩
